import Mathlib

/-!
# Verification of the filtering and data-join engine of Stay & Sip Finger Lakes

Shallow embedding of `src/app.py`. Tables model pandas DataFrames: a table
carries an explicit column list (pandas `df.columns`) and a list of rows; a
row is an association list from column name to an optional cell value, where
`none` models a missing value (pandas NaN). Python exceptions that the
relevant expressions can raise (KeyError from column selection, TypeError
from ordered comparison against a string cell, FileNotFoundError from
`os.path.getmtime`) are modelled with `Except PyExc`.
-/

namespace StaySip

/-- A JSON-scalar cell value as it appears in the loaded DataFrames. -/
inductive Value where
  | str (s : String)
  | num (n : Int)
  | bool (b : Bool)
deriving DecidableEq, Repr

/-- A row: association list from column name to optional cell value
(`none` = NaN). -/
abbrev Row := List (String × Option Value)

/-- Cell access: a key absent from the row behaves like NaN (in a pandas
DataFrame every row has every column, missing source keys were filled with
NaN at load time). -/
def getCell (r : Row) (c : String) : Option Value :=
  match r.lookup c with
  | some v => v
  | none => none

/-- A pandas DataFrame: explicit column list plus rows. -/
structure Table where
  cols : List String
  rows : List Row
deriving DecidableEq, Repr

/-- The fresh empty DataFrame `pd.DataFrame()`, with no columns. -/
def emptyDF : Table := ⟨[], []⟩

/-- Python exceptions the embedded expressions can raise. -/
inductive PyExc where
  | keyError
  | typeError
  | fileNotFound
deriving DecidableEq, Repr

/-- Elementwise pandas `== scalar-string`: NaN and non-string cells compare
unequal (Python `==` across types is False, never an error). -/
def cellEqStr (c : Option Value) (s : String) : Bool :=
  match c with
  | some (.str t) => t == s
  | _ => false

/-- Elementwise pandas `== True`: Python `True == True` and `1 == True` hold;
NaN, strings and other numbers compare unequal. -/
def pyEqTrue (c : Option Value) : Bool :=
  match c with
  | some (.bool b) => b
  | some (.num n) => n == 1
  | _ => false

/-- Elementwise pandas `<= scalar-int`: NaN compares False, booleans coerce
to 0/1, a string cell raises TypeError. -/
def pyLeInt (c : Option Value) (m : Int) : Except PyExc Bool :=
  match c with
  | none => .ok false
  | some (.num n) => .ok (decide (n ≤ m))
  | some (.bool b) => .ok (decide ((if b then (1 : Int) else 0) ≤ m))
  | some (.str _) => .error .typeError

/-- Elementwise pandas `>= scalar-int`, same conventions as `pyLeInt`. -/
def pyGeInt (c : Option Value) (m : Int) : Except PyExc Bool :=
  match c with
  | none => .ok false
  | some (.num n) => .ok (decide (m ≤ n))
  | some (.bool b) => .ok (decide (m ≤ (if b then (1 : Int) else 0)))
  | some (.str _) => .error .typeError

/-- Whether a cell holds a string value (the one case where an ordered
comparison against a number raises TypeError). -/
def isStrCell (c : Option Value) : Bool :=
  match c with
  | some (.str _) => true
  | _ => false

/-- The Bool value `pyLeInt` yields when it does not raise. -/
def pyLeIntB (c : Option Value) (m : Int) : Bool :=
  match c with
  | none => false
  | some (.num n) => decide (n ≤ m)
  | some (.bool b) => decide ((if b then (1 : Int) else 0) ≤ m)
  | some (.str _) => false

/-- The Bool value `pyGeInt` yields when it does not raise. -/
def pyGeIntB (c : Option Value) (m : Int) : Bool :=
  match c with
  | none => false
  | some (.num n) => decide (m ≤ n)
  | some (.bool b) => decide (m ≤ (if b then (1 : Int) else 0))
  | some (.str _) => false

/-- Boolean-mask row selection where evaluating the mask may raise (pandas
evaluates the whole comparison series; it raises iff some cell raises). -/
def exceptFilter (p : Row → Except PyExc Bool) : List Row → Except PyExc (List Row)
  | [] => .ok []
  | r :: rs =>
    match p r with
    | .error e => .error e
    | .ok b =>
      match exceptFilter p rs with
      | .error e => .error e
      | .ok rest => .ok (if b then r :: rest else rest)

/-- Function `apply_lake` (app.py lines 69-74): empty input returns a fresh
`pd.DataFrame()`; with a concrete region and a `lake` column, keep rows
where `lake == region`; otherwise return the table unchanged. -/
def apply_lake (lake : String) (df : Table) : Table :=
  if df.rows.isEmpty then emptyDF
  else if lake ≠ "All" ∧ "lake" ∈ df.cols then
    ⟨df.cols, df.rows.filter fun r => cellEqStr (getCell r "lake") lake⟩
  else df

/-- Stays price filter (app.py lines 152-153):
`if not df.empty and "price_per_night" in df.columns:
   df = df[df["price_per_night"] <= budget]`. -/
def filterByMaxPrice (maxPrice : Int) (df : Table) : Except PyExc Table :=
  if ¬df.rows.isEmpty ∧ "price_per_night" ∈ df.cols then
    match exceptFilter (fun r => pyLeInt (getCell r "price_per_night") maxPrice) df.rows with
    | .error e => .error e
    | .ok rs => .ok ⟨df.cols, rs⟩
  else .ok df

/-- Venues capacity filter (app.py lines 200-201):
`if not df.empty and "capacity" in df.columns:
   df = df[df["capacity"] >= min_cap]`. -/
def filterByMinCapacity (minCap : Int) (df : Table) : Except PyExc Table :=
  if ¬df.rows.isEmpty ∧ "capacity" ∈ df.cols then
    match exceptFilter (fun r => pyGeInt (getCell r "capacity") minCap) df.rows with
    | .error e => .error e
    | .ok rs => .ok ⟨df.cols, rs⟩
  else .ok df

/-- Wineries tastings filter (app.py lines 173-174):
`if only_tastings and not df.empty: df = df[df.get("tasting", False) == True]`.
When the column is absent on a non-empty table, `df.get` yields the scalar
`False`, `False == True` is the scalar `False`, and `df[False]` raises
KeyError. -/
def filterByBooleanFlag (col : String) (df : Table) : Except PyExc Table :=
  if df.rows.isEmpty then .ok df
  else if col ∈ df.cols then
    .ok ⟨df.cols, df.rows.filter fun r => pyEqTrue (getCell r col)⟩
  else .error .keyError

/-- Exact-match selector filter (app.py lines 160-161 and 187-188):
`if tsel != "All" and not df.empty: df = df[df["type"] == tsel]`.
`df[col]` raises KeyError when the column is absent. -/
def filterByExactMatch (col sel : String) (df : Table) : Except PyExc Table :=
  if sel = "All" ∨ df.rows.isEmpty then .ok df
  else if col ∈ df.cols then
    .ok ⟨df.cols, df.rows.filter fun r => cellEqStr (getCell r col) sel⟩
  else .error .keyError

/-- Cell-to-string view of `tolist`: only string cells yield a Python `str`.
The selector columns (`type`, `category`) hold strings in the data model. -/
def valToStr : Value → Option String
  | .str s => some s
  | _ => none

/-- pandas `Series.unique()`: distinct values in order of first occurrence. -/
def uniqueFirst (l : List String) : List String :=
  l.foldl (fun acc x => if x ∈ acc then acc else acc ++ [x]) []

/-- The non-null string values of a column, in row order
(`df[col].dropna()`). -/
def columnStrVals (col : String) (df : Table) : List String :=
  (df.rows.filterMap fun r => getCell r col).filterMap valToStr

/-- Python string comparison on lists of characters: case-sensitive
lexicographic by Unicode code point. -/
def charsLe : List Char → List Char → Bool
  | [], _ => true
  | _ :: _, [] => false
  | c :: cs, d :: ds =>
    if c.toNat < d.toNat then true
    else if d.toNat < c.toNat then false
    else charsLe cs ds

/-- Python `s1 <= s2` on strings. -/
def strLe (a b : String) : Bool := charsLe a.data b.data

/-- Insert into a sorted list (one step of a stable sort). -/
def insertLe (x : String) : List String → List String
  | [] => [x]
  | y :: ys => if strLe x y then x :: y :: ys else y :: insertLe x ys

/-- Python `sorted` on a list of strings (stable comparison sort; any
comparison sort yields the same output on the distinct inputs used here). -/
def sortLe : List String → List String
  | [] => []
  | x :: xs => insertLe x (sortLe xs)

/-- Selector option list (app.py lines 154 and 181):
`["All"] + (sorted(df[col].dropna().unique().tolist())
            if col in df.columns and not df.empty else [])`.
Python `sorted` on strings is case-sensitive lexicographic by code point. -/
def optionList (col : String) (df : Table) : List String :=
  "All" :: (if col ∈ df.cols ∧ ¬df.rows.isEmpty then
      sortLe (uniqueFirst (columnStrVals col df))
    else [])

/-- Output schema of the map table:
`d[["name", "lat", "lng", "ctype", "lake"]]` (app.py line 217). -/
def mapCols : List String := ["name", "lat", "lng", "ctype", "lake"]

/-- One output row of the map table: the projection of a surviving row to
`mapCols`, with the freshly assigned `ctype` tag (app.py lines 216-217). -/
def projRow (tag : String) (r : Row) : Row :=
  [("name", getCell r "name"), ("lat", getCell r "lat"), ("lng", getCell r "lng"),
   ("ctype", some (.str tag)), ("lake", getCell r "lake")]

/-- One iteration of the map aggregation loop (app.py lines 208-217):
`d = apply_lake(dataset).copy()`, then
`if not d.empty and {"lat", "lng"}.issubset(d.columns):` assign `ctype` and
append `d[["name", "lat", "lng", "ctype", "lake"]]`. Column selection raises
KeyError when `name` or `lake` is missing (`lat`, `lng` are guaranteed by the
guard and `ctype` was just assigned). -/
def mapPart (lake tag : String) (t : Table) : Except PyExc (List Row) :=
  let d := apply_lake lake t
  if ¬d.rows.isEmpty ∧ "lat" ∈ d.cols ∧ "lng" ∈ d.cols then
    if "name" ∈ d.cols ∧ "lake" ∈ d.cols then .ok (d.rows.map (projRow tag))
    else .error .keyError
  else .ok []

/-- The map tab aggregation (app.py lines 207-237): run the loop over the
four entity tables in order, concatenate the appended parts
(`pd.concat(combined, ignore_index=True)`), and return `none` when nothing
was appended (the "No locations to show" branch). -/
def buildMap (lake : String) (stays wineries attrs venues : Table) :
    Except PyExc (Option Table) :=
  match mapPart lake "Stay" stays with
  | .error e => .error e
  | .ok ps =>
    match mapPart lake "Winery" wineries with
    | .error e => .error e
    | .ok pw =>
      match mapPart lake "Attraction" attrs with
      | .error e => .error e
      | .ok pa =>
        match mapPart lake "Wedding Venue" venues with
        | .error e => .error e
        | .ok pv =>
          if (ps ++ pw ++ pa ++ pv).isEmpty then .ok none
          else .ok (some ⟨mapCols, ps ++ pw ++ pa ++ pv⟩)

/-- What `row.get("attractions", [])` (app.py line 255) can see for one
itinerary record. If NO record in the collection has the key, the DataFrame
has no `attractions` column, the key is missing from the row Series, and
`row.get` returns the default `[]`. If SOME record has the key, the column
exists for every row; a record lacking the list then holds a NaN cell, and
`row.get` returns that NaN (the default is unused because the key exists).
Otherwise the cell holds the record's id-list. -/
inductive AttrRef where
  | noColumn
  | nan
  | list (ids : List String)
deriving DecidableEq, Repr

/-- An itinerary row as the join accesses it (app.py lines 251-255):
`row["stays"]` and `row["wineries"]` are id-lists mandated by the data
model, while the attractions reference is read with
`row.get("attractions", [])` and can be any of the `AttrRef` cases. -/
structure Itinerary where
  stays : List String
  wineries : List String
  attractions : AttrRef
deriving DecidableEq, Repr

/-- One row of `df["id"].isin(ids)`: a NaN or non-string id cell is never
in a list of strings. -/
def idIn (ids : List String) (r : Row) : Bool :=
  match getCell r "id" with
  | some (.str s) => ids.contains s
  | _ => false

/-- Row selection `t[t["id"].isin(ids)]`: `t["id"]` raises KeyError when the `id` column
is absent (in particular on the fresh empty DataFrame a failed load
produces); otherwise keep exactly the rows whose id is in the list, in the
source table's row order. -/
def selectByIds (ids : List String) (t : Table) : Except PyExc Table :=
  if "id" ∈ t.cols then .ok ⟨t.cols, t.rows.filter (idIn ids)⟩
  else .error .keyError

/-- Row selection `t[t["id"].isin(row.get("attractions", []))]` (app.py
line 255): `t["id"]` raises KeyError first when the `id` column is absent;
then `isin` raises TypeError when its argument is the NaN a mixed
collection produces (pandas allows only list-like `isin` arguments); a
missing column resolves to the default `[]`, selecting nothing. -/
def selectByRef (ref : AttrRef) (t : Table) : Except PyExc Table :=
  if "id" ∈ t.cols then
    match ref with
    | .noColumn => .ok ⟨t.cols, t.rows.filter (idIn [])⟩
    | .nan => .error .typeError
    | .list ids => .ok ⟨t.cols, t.rows.filter (idIn ids)⟩
  else .error .keyError

/-- The itinerary cross-reference join (app.py lines 250-255):
`stays_df[stays_df["id"].isin(row["stays"])]`,
`wineries_df[wineries_df["id"].isin(row["wineries"])]`,
`attr_df[attr_df["id"].isin(row.get("attractions", []))]`.
(The subsequent display projection to name/address columns at the same lines
is rendering, outside the join itself.) -/
def resolveItineraryRefs (it : Itinerary) (stays wineries attrs : Table) :
    Except PyExc (Table × Table × Table) :=
  match selectByIds it.stays stays with
  | .error e => .error e
  | .ok s =>
    match selectByIds it.wineries wineries with
    | .error e => .error e
    | .ok w =>
      match selectByRef it.attractions attrs with
      | .error e => .error e
      | .ok a => .ok (s, w, a)

/-- What a source path holds: no file at all, a file whose content fails
JSON parsing (with the parser's reported position), or a well-formed list
of records. -/
inductive Source where
  | absent
  | malformed (line col : Nat) (msg : String)
  | wellFormed (recs : List Row)
deriving DecidableEq, Repr

/-- The user-visible load error surfaced by `st.error` (app.py lines 32-34):
it carries the parser's line (`e.lineno`), column (`e.colno`) and message. -/
structure LoadError where
  line : Nat
  col : Nat
  msg : String
deriving DecidableEq, Repr

/-- Column set of `pd.DataFrame(list_of_dicts)`: union of keys across records,
in order of first appearance. -/
def unionKeys (recs : List Row) : List String :=
  recs.foldl (fun acc r => r.foldl (fun a kv => if kv.1 ∈ a then a else a ++ [kv.1]) acc) []

/-- Function `safe_load` (app.py lines 23-35) over a filesystem `fs`: a missing file
makes `os.path.getmtime` raise FileNotFoundError, which the
`except json.JSONDecodeError` clause does not catch; malformed JSON is
caught, surfaced as a user-visible `LoadError` and replaced by the fresh
empty DataFrame; well-formed records become a DataFrame whose columns are
the union of record keys. -/
def safe_load (fs : String → Source) (path : String) :
    Except PyExc (Option LoadError × Table) :=
  match fs path with
  | .absent => .error .fileNotFound
  | .malformed l c m => .ok (some ⟨l, c, m⟩, emptyDF)
  | .wellFormed recs => .ok (none, ⟨unionKeys recs, recs⟩)

/-! ## Top-level execution order

Python runs a module's top-level statements in order; loading a global name
that no earlier statement has bound raises `NameError`. Each statement is
recorded with the global names it loads, in evaluation order, and the
global names it binds. -/

/-- One top-level statement: the global names it loads (in evaluation
order) and the global names it binds. -/
structure Stmt where
  uses : List String
  defines : List String
deriving DecidableEq, Repr

/-- First name in the list that is not bound in the environment. -/
def findUnbound (env : List String) : List String → Option String
  | [] => none
  | n :: ns => if n ∈ env then findUnbound env ns else some n

/-- Run top-level statements in order: the first load of an unbound global
raises `NameError` with that name; otherwise the statement's bindings are
added and execution continues. -/
def runStmts (env : List String) : List Stmt → Except String (List String)
  | [] => .ok env
  | s :: rest =>
    match findUnbound env s.uses with
    | some n => .error n
    | none => runStmts (env ++ s.defines) rest

/-- The top-level statements of app.py, in source order.
Index 23 is the stays tab block (lines 149-162), whose first statements run
`st.markdown(...)` then `df = apply_lake(stays_df)`: the loads are
`stays_tab`, `st`, `apply_lake`, `stays_df`, ... in that order.
The five dataset assignments are index 29 (lines 259-263). -/
def appScript : List Stmt := [
  -- 0: imports (lines 1-7)
  ⟨[], ["os", "json", "Path", "pd", "pdk", "st"]⟩,
  -- 1: st.set_page_config (line 10)
  ⟨["st"], []⟩,
  -- 2: def _load_json_df, decorator st.cache_data evaluated now (line 17)
  ⟨["st"], ["_load_json_df"]⟩,
  -- 3: def load_json_df (line 23)
  ⟨[], ["load_json_df"]⟩,
  -- 4: def safe_load (line 28)
  ⟨[], ["safe_load"]⟩,
  -- 5: hero_html assignment (line 38)
  ⟨[], ["hero_html"]⟩,
  -- 6: st.markdown(hero_html, ...) (line 49)
  ⟨["st", "hero_html"], []⟩,
  -- 7: c1, c2, c3, c4 = st.columns(4) (line 52)
  ⟨["st"], ["c1", "c2", "c3", "c4"]⟩,
  -- 8-11: link buttons (lines 53-56)
  ⟨["c1"], []⟩, ⟨["c2"], []⟩, ⟨["c3"], []⟩, ⟨["c4"], []⟩,
  -- 12: st.markdown spacer (line 57)
  ⟨["st"], []⟩,
  -- 13: st.sidebar.header (line 60)
  ⟨["st"], []⟩,
  -- 14: lake_opts assignment (line 61)
  ⟨[], ["lake_opts"]⟩,
  -- 15: lake = st.sidebar.selectbox (line 62)
  ⟨["st", "lake_opts"], ["lake"]⟩,
  -- 16: budget = st.sidebar.slider (line 63)
  ⟨["st"], ["budget"]⟩,
  -- 17: st.sidebar.markdown (line 64)
  ⟨["st"], []⟩,
  -- 18: if st.sidebar.button: clear cache and rerun (lines 65-67)
  ⟨["st"], []⟩,
  -- 19: def apply_lake (line 69)
  ⟨[], ["apply_lake"]⟩,
  -- 20: def card_grid (line 76)
  ⟨[], ["card_grid"]⟩,
  -- 21: st.markdown css (line 125)
  ⟨["st"], []⟩,
  -- 22: tabs assignment (line 144)
  ⟨["st"], ["stays_tab", "wineries_tab", "attractions_tab", "venues_tab",
            "map_tab", "itineraries_tab"]⟩,
  -- 23: stays tab block (lines 149-162)
  ⟨["stays_tab", "st", "apply_lake", "stays_df", "budget", "lake", "card_grid"], []⟩,
  -- 24: wineries tab block (lines 164-175)
  ⟨["wineries_tab", "st", "apply_lake", "wineries_df", "lake", "card_grid"], []⟩,
  -- 25: attractions tab block (lines 177-189)
  ⟨["attractions_tab", "st", "apply_lake", "attr_df", "lake", "card_grid"], []⟩,
  -- 26: venues tab block (lines 191-202)
  ⟨["venues_tab", "st", "apply_lake", "venues_df", "lake", "card_grid"], []⟩,
  -- 27: map tab block (lines 204-237)
  ⟨["map_tab", "st", "stays_df", "wineries_df", "attr_df", "venues_df",
    "apply_lake", "pd", "pdk"], []⟩,
  -- 28: itineraries tab block (lines 240-255)
  ⟨["itineraries_tab", "st", "apply_lake", "itin_df", "stays_df",
    "wineries_df", "attr_df"], []⟩,
  -- 29: dataset loads (lines 259-263)
  ⟨["safe_load"], ["stays_df", "wineries_df", "attr_df", "venues_df", "itin_df"]⟩,
  -- 30: def apply_lake, second copy (line 266)
  ⟨[], ["apply_lake"]⟩,
  -- 31: def card_grid, second copy (line 273)
  ⟨[], ["card_grid"]⟩,
  -- 32: if view == ... view dispatch (lines 323-413)
  ⟨["view", "st", "apply_lake", "stays_df", "budget", "lake", "card_grid",
    "wineries_df", "attr_df", "venues_df", "itin_df", "pd", "pdk"], []⟩,
  -- 33: st.markdown separator (line 416)
  ⟨["st"], []⟩,
  -- 34: footer_html assignment with .format(year=...) (lines 418-433)
  ⟨["pd"], ["footer_html"]⟩,
  -- 35: st.markdown(footer_html) (line 435)
  ⟨["st", "footer_html"], []⟩
]

/-- The five entity-table globals (assigned at lines 259-263). -/
def entityTableNames : List String :=
  ["stays_df", "wineries_df", "attr_df", "venues_df", "itin_df"]

/-- Globals bound by the first `n` top-level statements. -/
def envAt (n : Nat) : List String :=
  (appScript.take n).foldl (fun e s => e ++ s.defines) []

/-- View of an `Except` as a sum, for deciding equality. -/
def exceptToSum {ε α : Type} : Except ε α → ε ⊕ α
  | .error e => .inl e
  | .ok a => .inr a

instance {ε α : Type} [DecidableEq ε] [DecidableEq α] : DecidableEq (Except ε α) :=
  fun x y => decidable_of_iff (exceptToSum x = exceptToSum y)
    (by cases x <;> cases y <;> simp [exceptToSum])

/-! ## Concrete fixtures used by witnesses and counterexamples -/

/-- A stay record with both coordinates. -/
def stayRowA : Row :=
  [("name", some (.str "A Cabin")), ("lake", some (.str "Keuka")),
   ("type", some (.str "Cabin")), ("price_per_night", some (.num 150)),
   ("lat", some (.num 42)), ("lng", some (.num (-77)))]

/-- A stay record whose `lat` value is null while the table still has the
column. -/
def stayRowB : Row :=
  [("name", some (.str "B Inn")), ("lake", some (.str "Seneca")),
   ("type", some (.str "Inn")), ("price_per_night", some (.num 350)),
   ("lat", none), ("lng", some (.num (-76)))]

/-- A one-row stays table with coordinates. -/
def staysOne : Table := ⟨["name", "lake", "type", "price_per_night", "lat", "lng"], [stayRowA]⟩

/-- A two-row stays table whose second row has a null `lat` value. -/
def staysTwo : Table :=
  ⟨["name", "lake", "type", "price_per_night", "lat", "lng"], [stayRowA, stayRowB]⟩

/-- A one-row winery table loaded from a record without coordinate keys:
the DataFrame has no `lat`/`lng` columns. -/
def wineryNoCoords : Table :=
  ⟨["id", "name", "lake", "tasting"],
   [[("id", some (.str "w1")), ("name", some (.str "W")),
     ("lake", some (.str "Keuka")), ("tasting", some (.bool true))]]⟩

/-- A table with stay types Cabin, cabin, Inn (spec §8 concrete example). -/
def typesTbl : Table :=
  ⟨["name", "type"],
   [[("name", some (.str "a")), ("type", some (.str "Cabin"))],
    [("name", some (.str "b")), ("type", some (.str "cabin"))],
    [("name", some (.str "c")), ("type", some (.str "Inn"))]]⟩

/-- An empty table that still has a `lake` column (zero rows after an
earlier row-selection, as pandas produces). -/
def emptyWithLake : Table := ⟨["lake"], []⟩

/-- A non-empty one-column table lacking the `tasting` column. -/
def noTastingTbl : Table := ⟨["name"], [[("name", some (.str "X"))]]⟩

/-- A small stays table with ids, for the join fixtures. -/
def staysIdTbl : Table :=
  ⟨["id", "name", "lake"],
   [[("id", some (.str "s1")), ("name", some (.str "One")), ("lake", some (.str "Keuka"))],
    [("id", some (.str "s2")), ("name", some (.str "Two")), ("lake", some (.str "Seneca"))]]⟩

/-- An itinerary referencing one valid and one nonexistent stay id, from a
collection in which no record has an attractions key (no column). -/
def itinA : Itinerary := ⟨["s2", "zzz"], [], .noColumn⟩

/-- An itinerary record lacking its attractions list inside a mixed
collection where the column exists: its attractions cell is NaN. -/
def itinB : Itinerary := ⟨["s2", "zzz"], [], .nan⟩

/-- A filesystem with one malformed collection and one well-formed one. -/
def fsA : String → Source := fun p =>
  if p = "data/attractions.json" then .malformed 3 7 "Expecting value"
  else if p = "data/stays.json" then .wellFormed [stayRowA]
  else .absent

/-! ## Helper lemmas -/

theorem cellEqStr_iff (c : Option Value) (s : String) :
    cellEqStr c s = true ↔ c = some (.str s) := by
  cases c with
  | none => simp [cellEqStr]
  | some v => cases v <;> simp [cellEqStr]

theorem charsLe_total : ∀ as bs : List Char, charsLe as bs = true ∨ charsLe bs as = true := by
  intro as
  induction as with
  | nil => intro bs; left; rfl
  | cons a as ih =>
    intro bs
    match bs with
    | [] => right; rfl
    | b :: bs' =>
      rcases Nat.lt_trichotomy a.toNat b.toNat with hab | hab | hab
      · left; simp [charsLe, hab]
      · have h1 : ¬ a.toNat < b.toNat := by omega
        have h2 : ¬ b.toNat < a.toNat := by omega
        simpa [charsLe, h1, h2] using ih bs'
      · right; simp [charsLe, hab, show ¬ a.toNat < b.toNat by omega]

theorem charsLe_trans : ∀ as bs cs : List Char,
    charsLe as bs = true → charsLe bs cs = true → charsLe as cs = true := by
  intro as
  induction as with
  | nil => intro bs cs _ _; rfl
  | cons a as ih =>
    intro bs cs h1 h2
    match bs, cs with
    | [], _ => simp [charsLe] at h1
    | _ :: _, [] => simp [charsLe] at h2
    | b :: bs', c :: cs' =>
      simp only [charsLe] at h1 h2 ⊢
      split_ifs at h1 h2 ⊢ <;>
        first
          | rfl
          | exact ih bs' cs' h1 h2
          | (exfalso; omega)

theorem strLe_total (a b : String) : strLe a b = true ∨ strLe b a = true :=
  charsLe_total a.data b.data

theorem strLe_trans (a b c : String) (h1 : strLe a b = true) (h2 : strLe b c = true) :
    strLe a c = true :=
  charsLe_trans a.data b.data c.data h1 h2

theorem perm_insertLe (x : String) (l : List String) :
    List.Perm (insertLe x l) (x :: l) := by
  induction l with
  | nil => exact List.Perm.refl _
  | cons y ys ih =>
    simp only [insertLe]
    split
    · exact List.Perm.refl _
    · exact (ih.cons y).trans (List.Perm.swap x y ys)

theorem perm_sortLe (l : List String) : List.Perm (sortLe l) l := by
  induction l with
  | nil => exact List.Perm.refl _
  | cons x xs ih => exact (perm_insertLe x (sortLe xs)).trans (ih.cons x)

theorem pairwise_insertLe (x : String) (l : List String)
    (h : l.Pairwise (fun a b => strLe a b = true)) :
    (insertLe x l).Pairwise (fun a b => strLe a b = true) := by
  induction l with
  | nil => simp [insertLe]
  | cons y ys ih =>
    rcases List.pairwise_cons.mp h with ⟨hy, hys⟩
    by_cases hxy : strLe x y = true
    · rw [insertLe, if_pos hxy]
      refine List.pairwise_cons.mpr ⟨?_, h⟩
      intro z hz
      rcases List.mem_cons.mp hz with rfl | hz
      · exact hxy
      · exact strLe_trans x y z hxy (hy z hz)
    · rw [insertLe, if_neg hxy]
      refine List.pairwise_cons.mpr ⟨?_, ih hys⟩
      intro z hz
      have hz' : z ∈ x :: ys := (perm_insertLe x ys).mem_iff.mp hz
      rcases List.mem_cons.mp hz' with rfl | hz''
      · rcases strLe_total z y with hc | hc
        · exact absurd hc hxy
        · exact hc
      · exact hy z hz''

theorem pairwise_sortLe (l : List String) :
    (sortLe l).Pairwise (fun a b => strLe a b = true) := by
  induction l with
  | nil => simp [sortLe]
  | cons x xs ih => exact pairwise_insertLe x (sortLe xs) ih

theorem mem_uniqueFirst_aux (l : List String) (acc : List String) (x : String) :
    x ∈ l.foldl (fun a y => if y ∈ a then a else a ++ [y]) acc ↔ x ∈ acc ∨ x ∈ l := by
  induction l generalizing acc with
  | nil => simp
  | cons y ys ih =>
    simp only [List.foldl]
    by_cases hy : y ∈ acc
    · rw [if_pos hy, ih]
      simp only [List.mem_cons]
      constructor
      · rintro (h | h)
        · exact Or.inl h
        · exact Or.inr (Or.inr h)
      · rintro (h | rfl | h)
        · exact Or.inl h
        · exact Or.inl hy
        · exact Or.inr h
    · rw [if_neg hy, ih]
      simp only [List.mem_append, List.mem_cons, List.mem_singleton]
      tauto

theorem mem_uniqueFirst (x : String) (l : List String) :
    x ∈ uniqueFirst l ↔ x ∈ l := by
  unfold uniqueFirst
  rw [mem_uniqueFirst_aux]
  simp

theorem nodup_uniqueFirst_aux (l : List String) (acc : List String) (h : acc.Nodup) :
    (l.foldl (fun a y => if y ∈ a then a else a ++ [y]) acc).Nodup := by
  induction l generalizing acc with
  | nil => simpa
  | cons y ys ih =>
    simp only [List.foldl]
    by_cases hy : y ∈ acc
    · rw [if_pos hy]; exact ih _ h
    · rw [if_neg hy]
      refine ih _ ?_
      simp [List.nodup_append, h, hy]

theorem nodup_uniqueFirst (l : List String) : (uniqueFirst l).Nodup :=
  nodup_uniqueFirst_aux l [] List.nodup_nil

theorem exceptFilter_ok_sublist (p : Row → Except PyExc Bool) :
    ∀ l l' : List Row, exceptFilter p l = .ok l' → List.Sublist l' l := by
  intro l
  induction l with
  | nil =>
    intro l' h
    simp only [exceptFilter, Except.ok.injEq] at h
    subst h
    exact List.Sublist.refl _
  | cons r rs ih =>
    intro l' h
    simp only [exceptFilter] at h
    cases hp : p r with
    | error e => rw [hp] at h; simp at h
    | ok b =>
      rw [hp] at h
      cases hrest : exceptFilter p rs with
      | error e => rw [hrest] at h; simp at h
      | ok rest =>
        rw [hrest] at h
        simp only [Except.ok.injEq] at h
        subst h
        cases b with
        | true => simpa using List.Sublist.cons₂ r (ih rest hrest)
        | false => simpa using List.Sublist.cons r (ih rest hrest)

theorem exceptFilter_eq_filter (p : Row → Except PyExc Bool) (q : Row → Bool) :
    ∀ l : List Row, (∀ r ∈ l, p r = .ok (q r)) →
      exceptFilter p l = .ok (l.filter q) := by
  intro l
  induction l with
  | nil => intro _; rfl
  | cons r rs ih =>
    intro h
    have hr : p r = .ok (q r) := h r (List.mem_cons_self r rs)
    have hrs := ih fun r' hr' => h r' (List.mem_cons_of_mem r hr')
    simp only [exceptFilter, hr, hrs, List.filter_cons]

theorem apply_lake_cols (lk : String) (df : Table) (h : ¬df.rows.isEmpty) :
    (apply_lake lk df).cols = df.cols := by
  unfold apply_lake
  rw [if_neg (by simpa using h)]
  split <;> rfl

theorem apply_lake_rows_sublist (lk : String) (df : Table) :
    List.Sublist (apply_lake lk df).rows df.rows := by
  unfold apply_lake
  split
  · simp [emptyDF]
  · split
    · exact List.filter_sublist _
    · exact List.Sublist.refl _

/-! ## Claim theorems -/

/-- C3: Executing the program's top-level statements in order never
succeeds: evaluation reaches the stays tab (statement index 23), which loads
`stays_df` before the dataset assignments (statement index 29) bind it, so
the run raises `NameError` on `stays_df`; none of the five entity-table
globals is bound before the stays tab runs, and every one of the six tab
blocks loads at least one of them. -/
theorem top_level_name_error :
    runStmts [] appScript = .error "stays_df"
    ∧ entityTableNames.all (fun n => !((envAt 23).contains n)) = true
    ∧ ((appScript.drop 23).take 6).all
        (fun s => s.uses.any (fun u => entityTableNames.contains u)) = true :=
  ⟨rfl, by decide, by decide⟩

/-- C5 counterexample: `apply_lake` applied with the sentinel region to
an empty table that still has a `lake` column does not return the table
unchanged: it returns the fresh empty DataFrame, which has no columns. -/
theorem region_filter_empty_cx :
    apply_lake "All" emptyWithLake ≠ emptyWithLake
    ∧ apply_lake "All" emptyWithLake = emptyDF :=
  ⟨by decide, rfl⟩

/-- C5 (amended): for a NON-EMPTY table, the sentinel region or a missing
`lake` column leaves the table unchanged; an empty input table (for every
region) yields the fresh empty DataFrame with no columns instead of the
input itself; otherwise the result is exactly the rows where `lake == R`,
and every result row satisfies `row.lake == R`. -/
theorem region_filter_amended (R : String) (T : Table) :
    (T.rows ≠ [] → (R = "All" ∨ "lake" ∉ T.cols) → apply_lake R T = T)
    ∧ (T.rows = [] → apply_lake R T = emptyDF)
    ∧ (T.rows ≠ [] → R ≠ "All" → "lake" ∈ T.cols →
        apply_lake R T = ⟨T.cols, T.rows.filter fun r => cellEqStr (getCell r "lake") R⟩)
    ∧ (R ≠ "All" → "lake" ∈ T.cols →
        ∀ r ∈ (apply_lake R T).rows, getCell r "lake" = some (.str R)) := by
  refine ⟨?_, ?_, ?_, ?_⟩
  · intro hne hAll
    have hcond : ¬(R ≠ "All" ∧ "lake" ∈ T.cols) := by tauto
    rw [apply_lake, if_neg (by simpa [List.isEmpty_iff] using hne), if_neg hcond]
  · intro he
    rw [apply_lake, if_pos (by simpa [List.isEmpty_iff] using he)]
  · intro hne hR hc
    rw [apply_lake, if_neg (by simpa [List.isEmpty_iff] using hne), if_pos ⟨hR, hc⟩]
  · intro hR hc r hr
    by_cases hne : T.rows = []
    · rw [apply_lake, if_pos (by simpa [List.isEmpty_iff] using hne)] at hr
      simp [emptyDF] at hr
    · rw [apply_lake, if_neg (by simpa [List.isEmpty_iff] using hne), if_pos ⟨hR, hc⟩] at hr
      rcases List.mem_filter.mp hr with ⟨_, hcell⟩
      exact (cellEqStr_iff _ _).mp hcell

/-- C5 witness: the amended theorem applied to concrete inputs: a
non-empty table passes through unchanged under the sentinel, an empty one
collapses to the fresh empty DataFrame, and a Keuka filter keeps exactly
the Keuka rows. -/
theorem region_filter_amended_witness :
    apply_lake "All" staysTwo = staysTwo
    ∧ apply_lake "Keuka" emptyWithLake = emptyDF
    ∧ apply_lake "Keuka" staysTwo =
        ⟨staysTwo.cols, staysTwo.rows.filter fun r => cellEqStr (getCell r "lake") "Keuka"⟩ :=
  ⟨(region_filter_amended "All" staysTwo).1 (by decide) (Or.inl rfl),
   (region_filter_amended "Keuka" emptyWithLake).2.1 rfl,
   (region_filter_amended "Keuka" staysTwo).2.2.1 (by decide) (by decide) (by decide)⟩

/-- C2 counterexample: a non-empty table lacking the `tasting` column
makes the tastings filter raise KeyError (`df.get("tasting", False)` is the
scalar `False`, and `df[False]` is a failing column lookup), so the filter
is not total over table shapes. -/
theorem boolean_flag_keyerror_cx :
    noTastingTbl.rows ≠ []
    ∧ filterByBooleanFlag "tasting" noTastingTbl = .error .keyError :=
  ⟨by decide, rfl⟩

/-- C2 (amended): the boolean-flag filter keeps exactly the rows whose
named column compares equal to `True` (false and absent values are both
excluded) whenever the table is empty (short-circuit, no error) or has the
column; but a non-empty table lacking the column raises KeyError. -/
theorem boolean_flag_amended (col : String) (t : Table) :
    (t.rows = [] → filterByBooleanFlag col t = .ok t)
    ∧ (col ∈ t.cols →
        filterByBooleanFlag col t =
          .ok ⟨t.cols, t.rows.filter fun r => pyEqTrue (getCell r col)⟩)
    ∧ (t.rows ≠ [] → col ∉ t.cols → filterByBooleanFlag col t = .error .keyError) := by
  obtain ⟨cs, rs⟩ := t
  refine ⟨?_, ?_, ?_⟩
  · intro he
    simp only at he
    subst he
    rfl
  · intro hc
    by_cases he : rs = []
    · subst he
      simp [filterByBooleanFlag]
    · rw [filterByBooleanFlag, if_neg (by simpa [List.isEmpty_iff] using he)]
      simp only
      rw [if_pos hc]
  · intro hne hnc
    simp only at hne
    rw [filterByBooleanFlag, if_neg (by simpa [List.isEmpty_iff] using hne)]
    simp only
    rw [if_neg hnc]

/-- C2 witness: the amended theorem applied to a concrete winery table:
the row whose `tasting` value is `True` is kept. -/
theorem boolean_flag_amended_witness :
    filterByBooleanFlag "tasting" wineryNoCoords =
      .ok ⟨wineryNoCoords.cols, wineryNoCoords.rows.filter fun r => pyEqTrue (getCell r "tasting")⟩ :=
  (boolean_flag_amended "tasting" wineryNoCoords).2.1 (by decide)

/-- C4 counterexample: loading a collection whose source file is missing
raises FileNotFoundError (from `os.path.getmtime`) past the loader
boundary, because `safe_load` catches only `json.JSONDecodeError`. So the
loader boundary does not hold for every source path. -/
theorem safe_load_absent_raises_cx :
    safe_load fsA "data/wineries.json" = .error .fileNotFound := rfl

/-- C4 (amended): for a source file that exists but holds malformed
content, `safe_load` does not raise: it returns the parser's line, column
and message as a user-visible error together with an empty table; a
well-formed collection loads into a table whose columns are the union of
its record keys; and what a path loads depends only on that path's own
source, so every other collection is unaffected. A MISSING source file,
however, raises FileNotFoundError past the boundary. -/
theorem safe_load_malformed_amended (fs : String → Source) (path : String) :
    (∀ l c m, fs path = .malformed l c m →
        safe_load fs path = .ok (some ⟨l, c, m⟩, emptyDF))
    ∧ (∀ recs, fs path = .wellFormed recs →
        safe_load fs path = .ok (none, ⟨unionKeys recs, recs⟩))
    ∧ (∀ fs' : String → Source, fs' path = fs path →
        safe_load fs' path = safe_load fs path) := by
  refine ⟨?_, ?_, ?_⟩
  · intro l c m h
    rw [safe_load, h]
  · intro recs h
    rw [safe_load, h]
  · intro fs' h
    rw [safe_load, safe_load, h]

/-- C4 witness: on a filesystem where the attractions source is malformed
at line 3, column 7 and the stays source is well-formed, attractions load
to an empty table with the positioned error while stays load normally. -/
theorem safe_load_malformed_amended_witness :
    safe_load fsA "data/attractions.json" = .ok (some ⟨3, 7, "Expecting value"⟩, emptyDF)
    ∧ safe_load fsA "data/stays.json" = .ok (none, ⟨unionKeys [stayRowA], [stayRowA]⟩) :=
  ⟨(safe_load_malformed_amended fsA "data/attractions.json").1 3 7 "Expecting value" rfl,
   (safe_load_malformed_amended fsA "data/stays.json").2.1 [stayRowA] rfl⟩

theorem pyLeInt_ok_of_not_str (c : Option Value) (m : Int)
    (h : isStrCell c = false) : pyLeInt c m = .ok (pyLeIntB c m) := by
  cases c with
  | none => rfl
  | some v =>
    cases v with
    | str s => simp [isStrCell] at h
    | num n => rfl
    | bool b => rfl

theorem pyLeIntB_isSome (c : Option Value) (m : Int) (h : pyLeIntB c m = true) :
    c.isSome := by
  cases c with
  | none => simp [pyLeIntB] at h
  | some v => rfl

/-- C6: when the `price_per_night` column exists (and its present values are
numeric, per the data model), the price filter keeps exactly the rows whose
price compares `<=` the bound; rows whose price value is missing are
excluded; when the column is entirely absent the table is returned
unchanged. -/
theorem max_price_filter_ok (m : Int) (t : Table)
    (hWF : ∀ r ∈ t.rows, isStrCell (getCell r "price_per_night") = false) :
    ("price_per_night" ∈ t.cols →
        filterByMaxPrice m t =
          .ok ⟨t.cols, t.rows.filter fun r => pyLeIntB (getCell r "price_per_night") m⟩)
    ∧ ("price_per_night" ∉ t.cols → filterByMaxPrice m t = .ok t)
    ∧ ("price_per_night" ∈ t.cols → ∀ r,
        r ∈ (t.rows.filter fun r => pyLeIntB (getCell r "price_per_night") m) →
          (getCell r "price_per_night").isSome) := by
  refine ⟨?_, ?_, ?_⟩
  · intro hc
    by_cases he : t.rows = []
    · obtain ⟨cs, rs⟩ := t
      simp only at he
      subst he
      simp [filterByMaxPrice]
    · have hEF : exceptFilter (fun r => pyLeInt (getCell r "price_per_night") m) t.rows =
          .ok (t.rows.filter fun r => pyLeIntB (getCell r "price_per_night") m) :=
        exceptFilter_eq_filter _ _ t.rows fun r hr =>
          pyLeInt_ok_of_not_str _ m (hWF r hr)
      rw [filterByMaxPrice, if_pos ⟨by simpa [List.isEmpty_iff] using he, hc⟩, hEF]
  · intro hnc
    rw [filterByMaxPrice, if_neg (by tauto)]
  · intro _ r hr
    exact pyLeIntB_isSome _ m (List.mem_filter.mp hr).2

/-- C6 witness: with bound 300 on a concrete stays table, the 150-priced
row is kept and the 350-priced row is dropped. -/
theorem max_price_filter_ok_witness :
    filterByMaxPrice 300 staysTwo =
      .ok ⟨staysTwo.cols, staysTwo.rows.filter fun r => pyLeIntB (getCell r "price_per_night") 300⟩
    ∧ filterByMaxPrice 300 wineryNoCoords = .ok wineryNoCoords :=
  ⟨(max_price_filter_ok 300 staysTwo (by decide)).1 (by decide),
   (max_price_filter_ok 300 wineryNoCoords (by decide)).2.1 (by decide)⟩

theorem idIn_nil (r : Row) : idIn [] r = false := by
  unfold idIn
  cases h : getCell r "id" with
  | none => rfl
  | some v => cases v <;> rfl

/-- C7 counterexample: an itinerary record whose attractions list is absent
while other records in the collection have one (so the column exists and
this record's cell is NaN) makes the join raise TypeError —
`attr_df["id"].isin(nan)` at app.py line 255 — rather than yield an empty
attractions subset. -/
theorem resolve_refs_nan_cx :
    resolveItineraryRefs itinB staysIdTbl wineryNoCoords wineryNoCoords =
      .error .typeError := rfl

/-- C7 (amended): when each source table has an `id` column, the itinerary
join returns for each kind exactly the rows whose id appears in the
corresponding id-list, in the source table's row order (a sublist of the
source rows, not the id-list's order); an id with no matching row changes
nothing (silently ignored); when no record in the collection has an
attractions key, `row.get` yields the default empty list and the
attractions subset is empty with no error; but a record whose attractions
list is absent while the column exists holds a NaN cell, and `isin(nan)`
raises TypeError. -/
theorem resolve_refs_amended (it : Itinerary) (stays wineries attrs : Table)
    (hs : "id" ∈ stays.cols) (hw : "id" ∈ wineries.cols) (ha : "id" ∈ attrs.cols) :
    (∀ ids, it.attractions = .list ids →
        resolveItineraryRefs it stays wineries attrs =
          .ok (⟨stays.cols, stays.rows.filter (idIn it.stays)⟩,
               ⟨wineries.cols, wineries.rows.filter (idIn it.wineries)⟩,
               ⟨attrs.cols, attrs.rows.filter (idIn ids)⟩))
    ∧ (it.attractions = .noColumn →
        resolveItineraryRefs it stays wineries attrs =
          .ok (⟨stays.cols, stays.rows.filter (idIn it.stays)⟩,
               ⟨wineries.cols, wineries.rows.filter (idIn it.wineries)⟩,
               ⟨attrs.cols, []⟩))
    ∧ (it.attractions = .nan →
        resolveItineraryRefs it stays wineries attrs = .error .typeError)
    ∧ (∀ r, r ∈ stays.rows.filter (idIn it.stays) ↔
        r ∈ stays.rows ∧ idIn it.stays r = true)
    ∧ List.Sublist (stays.rows.filter (idIn it.stays)) stays.rows
    ∧ (∀ x, (∀ r ∈ stays.rows, getCell r "id" ≠ some (.str x)) →
        stays.rows.filter (idIn (x :: it.stays)) = stays.rows.filter (idIn it.stays)) := by
  have h1 : selectByIds it.stays stays = .ok ⟨stays.cols, stays.rows.filter (idIn it.stays)⟩ := by
    rw [selectByIds, if_pos hs]
  have h2 : selectByIds it.wineries wineries =
      .ok ⟨wineries.cols, wineries.rows.filter (idIn it.wineries)⟩ := by
    rw [selectByIds, if_pos hw]
  refine ⟨?_, ?_, ?_, ?_, List.filter_sublist _, ?_⟩
  · intro ids hattr
    have h3 : selectByRef it.attractions attrs =
        .ok ⟨attrs.cols, attrs.rows.filter (idIn ids)⟩ := by
      rw [hattr, selectByRef, if_pos ha]
    rw [resolveItineraryRefs, h1, h2, h3]
  · intro hattr
    have hemp : attrs.rows.filter (idIn []) = [] :=
      List.filter_eq_nil_iff.mpr fun r _ => by simp [idIn_nil r]
    have h3 : selectByRef it.attractions attrs = .ok ⟨attrs.cols, []⟩ := by
      rw [hattr, selectByRef, if_pos ha, hemp]
    rw [resolveItineraryRefs, h1, h2, h3]
  · intro hattr
    have h3 : selectByRef it.attractions attrs = .error .typeError := by
      rw [hattr, selectByRef, if_pos ha]
    rw [resolveItineraryRefs, h1, h2, h3]
  · intro r
    exact List.mem_filter
  · intro x hx
    refine List.filter_congr fun r hr => ?_
    unfold idIn
    cases hc : getCell r "id" with
    | none => rfl
    | some v =>
      cases v with
      | str s =>
        have hne : s ≠ x := by
          intro hcon
          exact hx r hr (by rw [hc, hcon])
        simp [List.contains, (by simpa using hne : (s == x) = false)]
        intro h
        exact absurd h hne
      | num n => rfl
      | bool b => rfl

/-- C7 witness: an itinerary referencing one valid and one nonexistent stay
id, from a collection with no attractions column, resolves to exactly the
one matching stay row and empty winery/attraction subsets with no error. -/
theorem resolve_refs_amended_witness :
    resolveItineraryRefs itinA staysIdTbl wineryNoCoords wineryNoCoords =
      .ok (⟨staysIdTbl.cols, staysIdTbl.rows.filter (idIn itinA.stays)⟩,
           ⟨wineryNoCoords.cols, wineryNoCoords.rows.filter (idIn itinA.wineries)⟩,
           ⟨wineryNoCoords.cols, []⟩) :=
  (resolve_refs_amended itinA staysIdTbl wineryNoCoords wineryNoCoords
    (by decide) (by decide) (by decide)).2.1 rfl

theorem valToStr_eq_some (v : Value) (s : String) :
    valToStr v = some s ↔ v = .str s := by
  cases v <;> simp [valToStr]

/-- C8: the option list always begins with the sentinel; with no usable
column it is exactly the sentinel; otherwise its tail is sorted in
case-sensitive lexicographic order, has no duplicates, and holds exactly
the non-null string values appearing in the column; concretely, stay types
Cabin, cabin, Inn yield the option list All, Cabin, Inn, cabin. -/
theorem option_list_ok (col : String) (t : Table) :
    optionList "type" typesTbl = ["All", "Cabin", "Inn", "cabin"]
    ∧ (optionList col t).head? = some "All"
    ∧ ((col ∉ t.cols ∨ t.rows = []) → optionList col t = ["All"])
    ∧ (col ∈ t.cols → t.rows ≠ [] →
        ((optionList col t).tail.Pairwise (fun a b => strLe a b = true)
         ∧ (optionList col t).tail.Nodup
         ∧ ∀ s, s ∈ (optionList col t).tail ↔
             ∃ r ∈ t.rows, getCell r col = some (.str s))) := by
  refine ⟨rfl, rfl, ?_, ?_⟩
  · intro h
    rw [optionList, if_neg]
    rintro ⟨hc, hne⟩
    rcases h with h | h
    · exact h hc
    · exact hne (by simpa [List.isEmpty_iff] using h)
  · intro hc hne
    rw [optionList, if_pos ⟨hc, by simpa [List.isEmpty_iff] using hne⟩]
    simp only [List.tail_cons]
    refine ⟨pairwise_sortLe _, ?_, ?_⟩
    · exact ((perm_sortLe _).nodup_iff).mpr (nodup_uniqueFirst _)
    · intro s
      rw [(perm_sortLe _).mem_iff, mem_uniqueFirst]
      simp only [columnStrVals, List.mem_filterMap, valToStr_eq_some]
      constructor
      · rintro ⟨v, ⟨r, hr, hcell⟩, rfl⟩
        exact ⟨r, hr, hcell⟩
      · rintro ⟨r, hr, hcell⟩
        exact ⟨.str s, ⟨r, hr, hcell⟩, rfl⟩

/-- C8 witness: the general conjunct applied to the concrete stay-type
table — its tail is sorted, duplicate-free, and contains Inn. -/
theorem option_list_ok_witness :
    (optionList "type" typesTbl).tail.Pairwise (fun a b => strLe a b = true)
    ∧ (optionList "type" typesTbl).tail.Nodup
    ∧ ("Inn" ∈ (optionList "type" typesTbl).tail ↔
        ∃ r ∈ typesTbl.rows, getCell r "type" = some (.str "Inn")) :=
  ⟨((option_list_ok "type" typesTbl).2.2.2 (by decide) (by decide)).1,
   ((option_list_ok "type" typesTbl).2.2.2 (by decide) (by decide)).2.1,
   ((option_list_ok "type" typesTbl).2.2.2 (by decide) (by decide)).2.2 "Inn"⟩

theorem sublist_subset_bound {l1 l2 : List Row} (h : List.Sublist l1 l2) :
    l1.length ≤ l2.length ∧ ∀ r ∈ l1, r ∈ l2 :=
  ⟨h.length_le, fun _ hr => h.subset hr⟩

/-- C9: every filter operation is a subset operation — whenever it returns
a table (rather than raising), the result has at most as many rows as the
input, and every result row appears unchanged among the input rows. -/
theorem filters_subset :
    (∀ (lk : String) (t : Table),
        (apply_lake lk t).rows.length ≤ t.rows.length
        ∧ ∀ r ∈ (apply_lake lk t).rows, r ∈ t.rows)
    ∧ (∀ (m : Int) (t u : Table), filterByMaxPrice m t = .ok u →
        u.rows.length ≤ t.rows.length ∧ ∀ r ∈ u.rows, r ∈ t.rows)
    ∧ (∀ (m : Int) (t u : Table), filterByMinCapacity m t = .ok u →
        u.rows.length ≤ t.rows.length ∧ ∀ r ∈ u.rows, r ∈ t.rows)
    ∧ (∀ (col : String) (t u : Table), filterByBooleanFlag col t = .ok u →
        u.rows.length ≤ t.rows.length ∧ ∀ r ∈ u.rows, r ∈ t.rows)
    ∧ (∀ (col sel : String) (t u : Table), filterByExactMatch col sel t = .ok u →
        u.rows.length ≤ t.rows.length ∧ ∀ r ∈ u.rows, r ∈ t.rows) := by
  refine ⟨?_, ?_, ?_, ?_, ?_⟩
  · intro lk t
    exact sublist_subset_bound (apply_lake_rows_sublist lk t)
  · intro m t u h
    rw [filterByMaxPrice] at h
    split at h
    · cases hEF : exceptFilter (fun r => pyLeInt (getCell r "price_per_night") m) t.rows with
      | error e => rw [hEF] at h; simp at h
      | ok rs =>
        rw [hEF] at h
        simp only [Except.ok.injEq] at h
        subst h
        exact sublist_subset_bound (exceptFilter_ok_sublist _ t.rows rs hEF)
    · simp only [Except.ok.injEq] at h
      subst h
      exact sublist_subset_bound (List.Sublist.refl _)
  · intro m t u h
    rw [filterByMinCapacity] at h
    split at h
    · cases hEF : exceptFilter (fun r => pyGeInt (getCell r "capacity") m) t.rows with
      | error e => rw [hEF] at h; simp at h
      | ok rs =>
        rw [hEF] at h
        simp only [Except.ok.injEq] at h
        subst h
        exact sublist_subset_bound (exceptFilter_ok_sublist _ t.rows rs hEF)
    · simp only [Except.ok.injEq] at h
      subst h
      exact sublist_subset_bound (List.Sublist.refl _)
  · intro col t u h
    rw [filterByBooleanFlag] at h
    split at h
    · simp only [Except.ok.injEq] at h
      subst h
      exact sublist_subset_bound (List.Sublist.refl _)
    · split at h
      · simp only [Except.ok.injEq] at h
        subst h
        exact sublist_subset_bound (List.filter_sublist _)
      · simp at h
  · intro col sel t u h
    rw [filterByExactMatch] at h
    split at h
    · simp only [Except.ok.injEq] at h
      subst h
      exact sublist_subset_bound (List.Sublist.refl _)
    · split at h
      · simp only [Except.ok.injEq] at h
        subst h
        exact sublist_subset_bound (List.filter_sublist _)
      · simp at h

/-- C9 witness: the subset property instantiated on a concrete run of the
price filter that actually drops a row. -/
theorem filters_subset_witness :
    (⟨staysTwo.cols, [stayRowA]⟩ : Table).rows.length ≤ staysTwo.rows.length
    ∧ ∀ r ∈ (⟨staysTwo.cols, [stayRowA]⟩ : Table).rows, r ∈ staysTwo.rows :=
  filters_subset.2.1 300 staysTwo ⟨staysTwo.cols, [stayRowA]⟩ rfl

theorem apply_lake_of_empty (lk : String) (df : Table) (he : df.rows = []) :
    apply_lake lk df = emptyDF := by
  rw [apply_lake, if_pos (by simpa [List.isEmpty_iff] using he)]

/-- C10: for an entity table with `name` and `lake` columns (as the data
model guarantees), a category contributes to the map iff its table is
non-empty after region filtering and has both coordinate COLUMNS; when it
contributes, every filtered row is projected into the output — including
rows whose lat or lng value is null. -/
theorem map_part_column_gate (lk tag : String) (t : Table)
    (hname : "name" ∈ t.cols) (hlake : "lake" ∈ t.cols) :
    (((apply_lake lk t).rows ≠ [] ∧ "lat" ∈ t.cols ∧ "lng" ∈ t.cols) →
        mapPart lk tag t = .ok ((apply_lake lk t).rows.map (projRow tag)))
    ∧ (((apply_lake lk t).rows = [] ∨ "lat" ∉ t.cols ∨ "lng" ∉ t.cols) →
        mapPart lk tag t = .ok []) := by
  constructor
  · rintro ⟨hne, hlat, hlng⟩
    have ht : t.rows ≠ [] := by
      intro h0
      rw [apply_lake_of_empty lk t h0] at hne
      exact hne rfl
    have hcols : (apply_lake lk t).cols = t.cols :=
      apply_lake_cols lk t (by simpa [List.isEmpty_iff] using ht)
    rw [mapPart, if_pos ⟨by simpa [List.isEmpty_iff] using hne, by rw [hcols]; exact hlat,
        by rw [hcols]; exact hlng⟩,
      if_pos ⟨by rw [hcols]; exact hname, by rw [hcols]; exact hlake⟩]
  · intro h
    by_cases he : (apply_lake lk t).rows = []
    · rw [mapPart, if_neg]
      rintro ⟨hne, _, _⟩
      exact absurd (by simpa [List.isEmpty_iff] using he) hne
    · have ht : t.rows ≠ [] := by
        intro h0
        rw [apply_lake_of_empty lk t h0] at he
        exact he rfl
      have hcols : (apply_lake lk t).cols = t.cols :=
        apply_lake_cols lk t (by simpa [List.isEmpty_iff] using ht)
      rcases h with h | h | h
      · exact absurd h he
      · rw [mapPart, if_neg]
        rintro ⟨_, hlat, _⟩
        rw [hcols] at hlat
        exact h hlat
      · rw [mapPart, if_neg]
        rintro ⟨_, _, hlng⟩
        rw [hcols] at hlng
        exact h hlng

/-- C10 witness: the gate applied to concrete tables — a stays table with
coordinate columns contributes all its rows (including the one with a null
lat value), and a winery table without coordinate columns contributes
nothing. -/
theorem map_part_column_gate_witness :
    mapPart "All" "Stay" staysTwo = .ok ((apply_lake "All" staysTwo).rows.map (projRow "Stay"))
    ∧ mapPart "All" "Winery" wineryNoCoords = .ok [] :=
  ⟨(map_part_column_gate "All" "Stay" staysTwo (by decide) (by decide)).1
      ⟨by decide, by decide, by decide⟩,
   (map_part_column_gate "All" "Winery" wineryNoCoords (by decide) (by decide)).2
      (Or.inr (Or.inl (by decide)))⟩

theorem mapPart_ok_rows (lk tag : String) (t : Table) (p : List Row)
    (h : mapPart lk tag t = .ok p) : ∀ r ∈ p, ∃ r0, r = projRow tag r0 := by
  rw [mapPart] at h
  split at h
  · split at h
    · simp only [Except.ok.injEq] at h
      subst h
      intro r hr
      rcases List.mem_map.mp hr with ⟨r0, _, rfl⟩
      exact ⟨r0, rfl⟩
    · simp at h
  · simp only [Except.ok.injEq] at h
    subst h
    intro r hr
    simp at hr

theorem lookup_projRow_lat (tag : String) (r0 : Row) :
    (projRow tag r0).lookup "lat" = some (getCell r0 "lat") := rfl

theorem lookup_projRow_lng (tag : String) (r0 : Row) :
    (projRow tag r0).lookup "lng" = some (getCell r0 "lng") := rfl

/-- C1 counterexample: with a stays table whose second record has a null
`lat` value (but whose table still has both coordinate columns), the map
output contains that record's row with no lat value — so not every map
output row has both coordinates present. -/
theorem map_null_coord_cx :
    buildMap "All" staysTwo emptyDF emptyDF emptyDF =
      .ok (some ⟨mapCols, [projRow "Stay" stayRowA, projRow "Stay" stayRowB]⟩)
    ∧ getCell (projRow "Stay" stayRowB) "lat" = none :=
  ⟨rfl, rfl⟩

/-- C1 (amended): map aggregation excludes records lacking a coordinate
only at table granularity: every map output row carries the lat and lng
COLUMNS (a row's coordinate values may still be null when its table has the
columns); the concrete example holds as stated — one Stay with coordinates
and one Winery without coordinate columns produce exactly one output row,
tagged "Stay". -/
theorem map_rows_amended :
    (buildMap "All" staysOne wineryNoCoords emptyDF emptyDF =
        .ok (some ⟨mapCols, [projRow "Stay" stayRowA]⟩)
      ∧ getCell (projRow "Stay" stayRowA) "ctype" = some (.str "Stay"))
    ∧ ∀ (lk : String) (s w a v out : Table),
        buildMap lk s w a v = .ok (some out) →
        ∀ r ∈ out.rows, (r.lookup "lat").isSome ∧ (r.lookup "lng").isSome := by
  refine ⟨⟨rfl, rfl⟩, ?_⟩
  intro lk s w a v out h r hr
  rw [buildMap] at h
  cases h1 : mapPart lk "Stay" s with
  | error e => rw [h1] at h; simp at h
  | ok ps =>
  rw [h1] at h
  cases h2 : mapPart lk "Winery" w with
  | error e => rw [h2] at h; simp at h
  | ok pw =>
  rw [h2] at h
  cases h3 : mapPart lk "Attraction" a with
  | error e => rw [h3] at h; simp at h
  | ok pa =>
  rw [h3] at h
  cases h4 : mapPart lk "Wedding Venue" v with
  | error e => rw [h4] at h; simp at h
  | ok pv =>
  rw [h4] at h
  have h5 : (if (ps ++ pw ++ pa ++ pv).isEmpty then (.ok none : Except PyExc (Option Table))
      else .ok (some ⟨mapCols, ps ++ pw ++ pa ++ pv⟩)) = .ok (some out) := h
  by_cases hemp : (ps ++ pw ++ pa ++ pv).isEmpty
  · rw [if_pos hemp] at h5
    simp at h5
  · rw [if_neg hemp] at h5
    simp only [Except.ok.injEq, Option.some.injEq] at h5
    subst h5
    simp only [List.mem_append] at hr
    have key : ∀ (tag : String) (tb : Table) (p : List Row),
        mapPart lk tag tb = .ok p → r ∈ p →
        (r.lookup "lat").isSome ∧ (r.lookup "lng").isSome := by
      intro tag tb p hp hrp
      obtain ⟨r0, rfl⟩ := mapPart_ok_rows lk tag tb p hp r hrp
      rw [lookup_projRow_lat, lookup_projRow_lng]
      exact ⟨rfl, rfl⟩
    rcases hr with ((hr | hr) | hr) | hr
    · exact key _ _ _ h1 hr
    · exact key _ _ _ h2 hr
    · exact key _ _ _ h3 hr
    · exact key _ _ _ h4 hr

/-- C1 witness: the schema conjunct instantiated on the concrete output of
the counterexample run — both coordinate columns are present in an output
row even though its lat value is null. -/
theorem map_rows_amended_witness :
    ((projRow "Stay" stayRowB).lookup "lat").isSome
    ∧ ((projRow "Stay" stayRowB).lookup "lng").isSome :=
  map_rows_amended.2 "All" staysTwo emptyDF emptyDF emptyDF
    ⟨mapCols, [projRow "Stay" stayRowA, projRow "Stay" stayRowB]⟩ rfl
    (projRow "Stay" stayRowB) (by simp)

end StaySip
